import Mathlib

/-!
Shallow embedding of the SLAP signal-synthesis and scoring engine
(`slap_agent.py`): network-log summarisation, DOM-timeline growth ratios,
access-protection signal detection, three-axis scoring, and the strategy
cascade.  Python floats are modelled as exact rationals (`ℚ`), machine
integers as `ℕ`/`ℤ`, Python string operations as operations on `List Char`.
-/

/-! ### Generic string helpers (Python `in`, `.lower()`) -/

/-- Decides whether `needle` is a prefix of the second list (character-wise). -/
def isPrefixList : List Char → List Char → Bool
  | [], _ => true
  | _ :: _, [] => false
  | a :: as, b :: bs => a = b && isPrefixList as bs

/-- Decides whether `needle` occurs as a contiguous sublist. -/
def subOccurs (needle : List Char) : List Char → Bool
  | [] => needle.isEmpty
  | c :: rest => isPrefixList needle (c :: rest) || subOccurs needle rest

/-- Python `needle in hay` on strings (substring containment). -/
def strContains (hay needle : String) : Bool := subOccurs needle.data hay.data

/-- Python `str.lower()`. -/
def lowerStr (s : String) : String := ⟨s.data.map Char.toLower⟩

/-- Python `int()` applied to a float/rational: truncation toward zero. -/
def truncQ (q : ℚ) : ℤ := if 0 ≤ q then Int.floor q else Int.ceil q

/-- Round to the nearest integer, ties to even (Python `round` semantics). -/
def roundHalfEven (x : ℚ) : ℤ :=
  let f := Int.floor x
  let r := x - f
  if r < 1 / 2 then f
  else if r > 1 / 2 then f + 1
  else if Even f then f else f + 1

/-- Python `round(x, 4)`: round to 4 decimal digits, ties to even. -/
def round4 (x : ℚ) : ℚ := (roundHalfEven (x * 10000) : ℚ) / 10000

/-! ### Data model -/

/-- Output of `extract_html_stats` (the fields the scoring core reads). -/
structure HtmlStats where
  total_size : ℕ
  tag_count : ℕ
  link_count : ℕ
  text_content_length : ℕ
  text_ratio : ℚ
  has_root_div : Bool
  title : String

/-- One captured network exchange (the fields `analyze_network_logs` reads). -/
structure NetworkLogEntry where
  type : String
  status : ℤ
  url : String
  content_type : String
  is_graphql : Bool

/-- Output of `analyze_network_logs`.  The Python `blocking_signals` dict keyed
by `"401"/"403"/"429"` is flattened into three counter fields, and the
`data_types` dict into `dt_json`/`dt_html`/`dt_graphql`. -/
structure NetworkSummary where
  total_captured : ℕ
  xhr_fetch_count : ℕ
  blocking_401 : ℕ
  blocking_403 : ℕ
  blocking_429 : ℕ
  dt_json : ℕ
  dt_html : ℕ
  dt_graphql : ℕ
  suspected_apis : List String
deriving DecidableEq

/-- One DOM snapshot (`node_count`, `text_length`, `scroll_height`); the raw
markup field is not read by the diff analyzer and is elided. -/
structure DomSnapshotMetrics where
  node_count : ℕ
  text_length : ℕ
  scroll_height : ℕ

/-- The four possible `interpretation` strings of `calculate_dom_diffs`,
abstracted to which branch produced them (the text also embeds the ratios). -/
inductive DomInterpretation where
  | virtualizedRendering
  | infiniteScroll
  | heavyCSR
  | minimalChange
deriving DecidableEq

/-- Output of `calculate_dom_diffs` (also the `diffs`/`classification` part of
the `dom_diff_result` dict the main flow passes downstream). -/
structure DomDiffResult where
  hydration_growth : ℚ
  scroll_growth : ℚ
  scroll_height_growth : ℚ
  is_virtualized_suspected : Bool
  interpretation : DomInterpretation

/-- One access-protection signal; the `evidence` payload list is elided (no
downstream decision reads it). -/
structure APSignal where
  label : String
  state : String
  confidence : ℚ
deriving DecidableEq

/-- The `labels` dict of `calculate_slap_score`; the nested
`structure.primary`/`structure.modifiers` fields are flattened. -/
structure SlapLabels where
  structure_primary : String
  structure_modifiers : List String
  loading : String
  access_protection : List String
deriving DecidableEq

/-- Per-axis truncated weighted contributions (`score["breakdown"]`). -/
structure ScoreBreakdown where
  AP : ℤ
  S : ℤ
  L : ℤ
deriving DecidableEq

/-- The `score` dict of `calculate_slap_score`. -/
structure Score where
  total_score : ℤ
  tier : String
  breakdown : ScoreBreakdown
  drivers : List String
deriving DecidableEq

/-- Output of `get_strategy_text`. -/
structure Strategy where
  level : String
  message : String
deriving DecidableEq

/-! ### `analyze_network_logs` -/

/-- `log['type'] in ['xhr', 'fetch']`. -/
def isXhrFetch (l : NetworkLogEntry) : Bool := l.type == "xhr" || l.type == "fetch"

/-- `log.get('is_graphql') or 'json' in log.get('content_type', '').lower()`. -/
def isApiLike (l : NetworkLogEntry) : Bool :=
  l.is_graphql || strContains (lowerStr l.content_type) "json"

/-- One iteration of the suspected-API loop.  Membership in the accumulated
list models membership in the Python `seen_urls` set (the two always hold the
same URLs since every append is paired with a set insertion). -/
def suspectedApisStep (acc : List String) (log : NetworkLogEntry) : List String :=
  if isXhrFetch log ∧ log.url ∉ acc then
    if isApiLike log then acc ++ [log.url] else acc
  else acc

/-- The `suspected_apis` extraction: first occurrence of each distinct URL
among API-like xhr/fetch entries, truncated to the first 10. -/
def suspectedApisOf (logs : List NetworkLogEntry) : List String :=
  (logs.foldl suspectedApisStep []).take 10

/-- `analyze_network_logs`: counts and API-endpoint extraction.  The status
comparison mirrors the Python `str(log['status'])` string comparison against
the fixed key set. -/
def analyze_network_logs (network_logs : List NetworkLogEntry) : NetworkSummary :=
  { total_captured := network_logs.length
    xhr_fetch_count := (network_logs.filter fun l => isXhrFetch l).length
    blocking_401 := (network_logs.filter fun l => toString l.status == "401").length
    blocking_403 := (network_logs.filter fun l => toString l.status == "403").length
    blocking_429 := (network_logs.filter fun l => toString l.status == "429").length
    dt_graphql := (network_logs.filter fun l => l.is_graphql).length
    dt_json := (network_logs.filter fun l =>
      !l.is_graphql && strContains (lowerStr l.content_type) "json").length
    dt_html := (network_logs.filter fun l =>
      !l.is_graphql && !strContains (lowerStr l.content_type) "json" &&
        strContains (lowerStr l.content_type) "html").length
    suspected_apis := suspectedApisOf network_logs }

/-! ### `calculate_dom_diffs` -/

/-- `(t1.node_count - t0.node_count) / t0.node_count if t0.node_count > 0 else 0`. -/
def hydrationGrowth (t0 t1 : DomSnapshotMetrics) : ℚ :=
  if t0.node_count > 0 then
    ((t1.node_count : ℚ) - (t0.node_count : ℚ)) / (t0.node_count : ℚ)
  else 0

/-- `(t2.node_count - t1.node_count) / t1.node_count if t1.node_count > 0 else 0`. -/
def scrollGrowth (t1 t2 : DomSnapshotMetrics) : ℚ :=
  if t1.node_count > 0 then
    ((t2.node_count : ℚ) - (t1.node_count : ℚ)) / (t1.node_count : ℚ)
  else 0

/-- `(t2.scroll_height - t1.scroll_height) / t1.scroll_height if t1.scroll_height > 0 else 0`. -/
def scrollHeightGrowth (t1 t2 : DomSnapshotMetrics) : ℚ :=
  if t1.scroll_height > 0 then
    ((t2.scroll_height : ℚ) - (t1.scroll_height : ℚ)) / (t1.scroll_height : ℚ)
  else 0

/-- `calculate_dom_diffs`: the virtualization flag and interpretation branch
are decided on the unrounded ratios; the ratio fields of the returned dict are
rounded to 4 decimal digits (`round(x, 4)`), and it is this returned dict that
the main flow forwards to `analyze_ap_signals` and `calculate_slap_score`. -/
def calculate_dom_diffs (t0 t1 t2 : DomSnapshotMetrics) : DomDiffResult :=
  let hydration_growth := hydrationGrowth t0 t1
  let scroll_growth := scrollGrowth t1 t2
  let scroll_height_growth := scrollHeightGrowth t1 t2
  let is_virtualized_suspected : Bool :=
    if scroll_height_growth > 0.5 ∧ scroll_growth < 0.05 then true else false
  let interpretation : DomInterpretation :=
    if is_virtualized_suspected then .virtualizedRendering
    else if scroll_growth > 0.2 then .infiniteScroll
    else if hydration_growth > 0.5 then .heavyCSR
    else .minimalChange
  { hydration_growth := round4 hydration_growth
    scroll_growth := round4 scroll_growth
    scroll_height_growth := round4 scroll_height_growth
    is_virtualized_suspected := is_virtualized_suspected
    interpretation := interpretation }

/-- Following the spec's words, for the refinement comparison of claim C3:
identical to `calculate_dom_diffs` except that the unrounded ratios are also
the ones carried downstream for all later threshold comparisons (per the spec
sentence "the unrounded values are used internally for comparisons"). -/
def calculate_dom_diffs_specUnrounded (t0 t1 t2 : DomSnapshotMetrics) : DomDiffResult :=
  let hydration_growth := hydrationGrowth t0 t1
  let scroll_growth := scrollGrowth t1 t2
  let scroll_height_growth := scrollHeightGrowth t1 t2
  let is_virtualized_suspected : Bool :=
    if scroll_height_growth > 0.5 ∧ scroll_growth < 0.05 then true else false
  let interpretation : DomInterpretation :=
    if is_virtualized_suspected then .virtualizedRendering
    else if scroll_growth > 0.2 then .infiniteScroll
    else if hydration_growth > 0.5 then .heavyCSR
    else .minimalChange
  { hydration_growth := hydration_growth
    scroll_growth := scroll_growth
    scroll_height_growth := scroll_height_growth
    is_virtualized_suspected := is_virtualized_suspected
    interpretation := interpretation }

/-! ### `analyze_ap_signals` -/

/-- The fixed login-intent keyword list (a bare `auth` is deliberately
excluded). -/
def loginKeywords : List String :=
  ["login", "signin", "sign-in", "sign_in", "authenticate", "authentication"]

/-- The fixed CAPTCHA/challenge vocabulary. -/
def captchaKeywords : List String :=
  ["recaptcha", "hcaptcha", "turnstile",
   "pardon our interruption", "verify you are human",
   "verify you\x27re human", "complete the captcha",
   "security check", "cloudflare"]

/-- `analyze_ap_signals`: the five independently-evaluated detection rules, in
source order.  `dom_diffs` is the `dom_diff_result` dict built by the main
flow, so its `hydration_growth` field holds the value rounded to 4 digits. -/
def analyze_ap_signals (url : String) (status_code : ℤ) (html_stats : HtmlStats)
    (network_summary : NetworkSummary) (raw_html : String)
    (dom_diffs : DomDiffResult) : List APSignal :=
  let s1 : List APSignal :=
    if network_summary.blocking_401 > 0 ∨ network_summary.blocking_403 > 0 then
      [{ label := "AP-AUTH", state := "confirmed", confidence := 1.0 }]
    else []
  let s2 : List APSignal :=
    if network_summary.blocking_429 > 0 then
      [{ label := "AP-RATE", state := "confirmed", confidence := 1.0 }]
    else []
  let url_match := loginKeywords.any fun kw => strContains (lowerStr url) kw
  let title_match := loginKeywords.any fun kw => strContains (lowerStr html_stats.title) kw
  let s3 : List APSignal :=
    if url_match || title_match then
      [{ label := "AP-LOGIN", state := "confirmed",
         confidence := if url_match then 1.0 else 0.8 }]
    else []
  let s4 : List APSignal :=
    if status_code = 200 ∧ html_stats.text_ratio < 0.02 ∧
        network_summary.xhr_fetch_count = 0 ∧ dom_diffs.hydration_growth < 0.1 then
      [{ label := "AP-BOT-SCORE", state := "suspected", confidence := 0.8 }]
    else []
  let found_captcha := captchaKeywords.filter fun kw => strContains (lowerStr raw_html) kw
  let s5 : List APSignal :=
    if found_captcha.isEmpty then []
    else [{ label := "AP-CAPTCHA", state := "confirmed", confidence := 0.95 }]
  s1 ++ s2 ++ s3 ++ s4 ++ s5

/-! ### `calculate_slap_score` -/

/-- The structure-axis primary classification (first match wins). -/
def sArchOf (html_stats : HtmlStats) (hydration_growth : ℚ) : String × ℕ :=
  if hydration_growth > 0.5 then ("S-CSR", 60)
  else if hydration_growth > 0.2 ∨ html_stats.has_root_div then ("S-CSR", 60)
  else if html_stats.text_ratio > 0.05 ∧ hydration_growth < 0.1 then ("S-SSR", 20)
  else ("S-STATIC", 0)

/-- The structure-axis modifier list and modifier score. -/
def sModOf (is_virtualized : Bool) : List String × ℕ :=
  if is_virtualized then (["S-VIRTUALIZED"], 90) else ([], 0)

/-- The loading-axis classification (first match wins). -/
def lAxisOf (network_summary : NetworkSummary) (scroll_growth : ℚ) : String × ℕ :=
  let json_ratio : ℚ :=
    if network_summary.total_captured > 0 then
      (network_summary.dt_json : ℚ) / (network_summary.total_captured : ℚ)
    else 0
  if network_summary.dt_graphql > 0 then ("L-GRAPHQL", 80)
  else if scroll_growth > 0.1 then ("L-INTERACTIVE", 50)
  else if network_summary.xhr_fetch_count > 5 ∧ json_ratio > 0.5 then ("L-API", 30)
  else ("L-STATIC", 0)

/-- The fixed per-label AP severity map (`ap_score_map.get(label, 0)`). -/
def apScoreMap (label : String) : ℕ :=
  if label = "AP-CAPTCHA" then 100
  else if label = "AP-AUTH" then 100
  else if label = "AP-RATE" then 80
  else if label = "AP-BOT-SCORE" then 60
  else if label = "AP-LOGIN" then 40
  else 0

/-- The AP label list: every detected label in order, or the `AP-OPEN`
sentinel when none was detected. -/
def apLabelsOf (ap_signals : List APSignal) : List String :=
  let ls := ap_signals.map fun s => s.label
  if ls.isEmpty then ["AP-OPEN"] else ls

/-- The AP-axis score: running maximum of the per-label severities. -/
def apScoreOf (ap_signals : List APSignal) : ℕ :=
  ap_signals.foldl (fun acc s => max acc (apScoreMap s.label)) 0

/-- `ap_labels[0] if ap_labels and ap_labels[0] != 'AP-OPEN' else None`. -/
def apCandidate : List String → Option String
  | [] => none
  | l :: _ => if l = "AP-OPEN" then none else some l

/-- The AP entry of the driver ranking: the maximum severity score paired with
the first detected label. -/
def apDriverEntry (ap_signals : List APSignal) : ℕ × Option String :=
  (apScoreOf ap_signals, apCandidate (apLabelsOf ap_signals))

/-- The structure driver: the modifier when its score strictly exceeds the
primary's, else the primary; `None` when the whole axis scored 0. -/
def sDriverLabelOf (s_primary : String) (s_modifiers : List String)
    (s_arch_score s_modifier_score : ℕ) : Option String :=
  if max s_arch_score s_modifier_score > 0 then
    if s_modifier_score > s_arch_score then s_modifiers.head? else some s_primary
  else none

/-- Tier bands with inclusive lower bounds 81/51/21. -/
def tierOf (total_score : ℤ) : String :=
  if total_score ≥ 81 then "HELL"
  else if total_score ≥ 51 then "HARD"
  else if total_score ≥ 21 then "MEDIUM"
  else "EASY"

/-- Insert after every entry of score ≥ the new entry's: one step of a stable
insertion sort, descending by score. -/
def insertDesc (p : ℕ × Option String) : List (ℕ × Option String) → List (ℕ × Option String)
  | [] => [p]
  | q :: rest => if q.1 ≥ p.1 then q :: insertDesc p rest else p :: q :: rest

/-- Python `list.sort(key=lambda x: x[0], reverse=True)`: stable, descending
by score (ties keep insertion order). -/
def sortDesc (l : List (ℕ × Option String)) : List (ℕ × Option String) :=
  l.foldl (fun acc p => insertDesc p acc) []

/-- `calculate_slap_score`: three-axis classification, weighted total with the
Golden-Rule weights (AP 0.5 / S 0.3 / L 0.2), tier, per-axis breakdown, and
the ranked driver list. -/
def calculate_slap_score (html_stats : HtmlStats) (network_summary : NetworkSummary)
    (dom_diff_result : DomDiffResult) (ap_signals : List APSignal) :
    SlapLabels × Score :=
  let hydration_growth := dom_diff_result.hydration_growth
  let scroll_growth := dom_diff_result.scroll_growth
  let is_virtualized := dom_diff_result.is_virtualized_suspected
  let sp := sArchOf html_stats hydration_growth
  let sm := sModOf is_virtualized
  let s_score := max sp.2 sm.2
  let la := lAxisOf network_summary scroll_growth
  let ap_labels := apLabelsOf ap_signals
  let ap_score := apScoreOf ap_signals
  let ap_weighted : ℚ := (ap_score : ℚ) * 0.5
  let s_weighted : ℚ := (s_score : ℚ) * 0.3
  let l_weighted : ℚ := (la.2 : ℚ) * 0.2
  let total_score := truncQ (ap_weighted + s_weighted + l_weighted)
  let tier := tierOf total_score
  let s_driver_label := sDriverLabelOf sp.1 sm.1 sp.2 sm.2
  let scored_items : List (ℕ × Option String) :=
    [apDriverEntry ap_signals, (s_score, s_driver_label),
     (la.2, if la.2 > 0 then some la.1 else none)]
  let drivers := (sortDesc scored_items).filterMap fun p => if p.1 > 0 then p.2 else none
  ({ structure_primary := sp.1, structure_modifiers := sm.1,
     loading := la.1, access_protection := ap_labels },
   { total_score := total_score, tier := tier,
     breakdown := { AP := truncQ ap_weighted, S := truncQ s_weighted, L := truncQ l_weighted },
     drivers := drivers })

/-! ### `get_strategy_text` -/

/-- `get_strategy_text`: first-match-wins priority cascade.  The `drivers`
argument is accepted but (as in the source) never read. -/
def get_strategy_text (labels : SlapLabels) (drivers : List String) : Strategy :=
  let ap_labels := labels.access_protection
  let s_primary := labels.structure_primary
  let s_modifiers := labels.structure_modifiers
  if ap_labels.contains "AP-CAPTCHA" || ap_labels.contains "AP-AUTH" then
    let blocker_type :=
      if ap_labels.contains "AP-CAPTCHA" then "CAPTCHA Solver" else "valid Credentials"
    { level := "abort"
      message := "ABORT: Hard blocking detected. Requires commercial " ++ blocker_type ++
        ". Standard automation will fail." }
  else if s_modifiers.contains "S-VIRTUALIZED" then
    { level := "warn"
      message := "WARN: DOM is virtualized (infinite scroll/fake rendering). Visual scraping will fail. You MUST reverse-engineer the internal JSON API." }
  else if ap_labels.contains "AP-RATE" || ap_labels.contains "AP-BOT-SCORE" then
    let issue := if ap_labels.contains "AP-RATE" then "Throttling (429)" else "Soft-blocking"
    { level := "caution"
      message := "CAUTION: " ++ issue ++
        " detected. Use exponential backoff, request rotation, and session management." }
  else if s_primary = "S-CSR" then
    { level := "info"
      message := "INFO: Client-Side Rendering detected. Headless browser required. Wait for hydration (network idle) before extracting data." }
  else if ap_labels.contains "AP-LOGIN" then
    { level := "info"
      message := "INFO: Login page detected. You can POST credentials or use authenticated sessions to access protected content." }
  else
    { level := "success"
      message := "SUCCESS: Standard HTTP requests with HTML parsing should work. No major obstacles detected." }

/-! ### End-to-end pipeline (the analysis part of the `main` flow) -/

/-- Everything one run of the engine produces. -/
structure RunResult where
  diffs : DomDiffResult
  summary : NetworkSummary
  signals : List APSignal
  labels : SlapLabels
  score : Score
  strategy : Strategy

/-- The analysis pipeline exactly as `main` composes it: diff the snapshots
(the rounded diff dict is what travels downstream), summarise the network
log, detect AP signals, score, and pick a strategy. -/
def runSlap (url : String) (status_code : ℤ) (html_stats : HtmlStats)
    (network_logs : List NetworkLogEntry) (t0 t1 t2 : DomSnapshotMetrics)
    (raw_html : String) : RunResult :=
  let dom_diff_result := calculate_dom_diffs t0 t1 t2
  let network_summary := analyze_network_logs network_logs
  let ap_signals :=
    analyze_ap_signals url status_code html_stats network_summary raw_html dom_diff_result
  let ls := calculate_slap_score html_stats network_summary dom_diff_result ap_signals
  { diffs := dom_diff_result, summary := network_summary, signals := ap_signals,
    labels := ls.1, score := ls.2, strategy := get_strategy_text ls.1 ls.2.drivers }

/-- Following the spec's words, for the refinement comparison of claim C3: the
same pipeline, but every downstream threshold comparison sees the exact
(unrounded) growth ratios. -/
def runSlapSpecUnrounded (url : String) (status_code : ℤ) (html_stats : HtmlStats)
    (network_logs : List NetworkLogEntry) (t0 t1 t2 : DomSnapshotMetrics)
    (raw_html : String) : RunResult :=
  let dom_diff_result := calculate_dom_diffs_specUnrounded t0 t1 t2
  let network_summary := analyze_network_logs network_logs
  let ap_signals :=
    analyze_ap_signals url status_code html_stats network_summary raw_html dom_diff_result
  let ls := calculate_slap_score html_stats network_summary dom_diff_result ap_signals
  { diffs := dom_diff_result, summary := network_summary, signals := ap_signals,
    labels := ls.1, score := ls.2, strategy := get_strategy_text ls.1 ls.2.drivers }

/-! ### Concrete inputs used by scenario theorems and witnesses -/

/-- Minimal HTML stats: text ratio 0.03 (below the SSR threshold, above the
bot-score threshold), no SPA root marker, empty title. -/
def statsMin : HtmlStats :=
  { total_size := 0, tag_count := 0, link_count := 0, text_content_length := 0,
    text_ratio := 0.03, has_root_div := false, title := "" }

/-- A snapshot with the given node count and scroll height. -/
def snapOf (nodes height : ℕ) : DomSnapshotMetrics :=
  { node_count := nodes, text_length := 0, scroll_height := height }

/-- A single captured exchange that returned HTTP 401. -/
def entry401 : NetworkLogEntry :=
  { type := "document", status := 401, url := "https://x/a", content_type := "",
    is_graphql := false }

/-- The C9 scenario run: empty network log, `t0 = t1 = t2` with 50 nodes and
height 0, no access-protection evidence. -/
def run9 : RunResult :=
  runSlap "" 200 statsMin [] (snapOf 50 0) (snapOf 50 0) (snapOf 50 0) ""

/-- The C1 scenario run: one 401 exchange, everything else minimal. -/
def run1 : RunResult :=
  runSlap "" 401 statsMin [entry401] (snapOf 50 0) (snapOf 50 0) (snapOf 50 0) ""

/-- The C2 scenario run: a login URL together with a CAPTCHA keyword in the
markup, so `AP-LOGIN` is detected before `AP-CAPTCHA`. -/
def run2 : RunResult :=
  runSlap "https://x/login" 404 statsMin [] (snapOf 50 0) (snapOf 50 0) (snapOf 50 0)
    "recaptcha"

/-- The C3 scenario run (as implemented): hydration growth 5001/25000 =
0.20004, which rounds to 0.2 before the downstream threshold comparisons. -/
def run3 : RunResult :=
  runSlap "" 200 statsMin [] (snapOf 25000 0) (snapOf 30001 0) (snapOf 30001 0) ""

/-- The C3 scenario run under the spec-described unrounded comparisons. -/
def run3u : RunResult :=
  runSlapSpecUnrounded "" 200 statsMin [] (snapOf 25000 0) (snapOf 30001 0)
    (snapOf 30001 0) ""

/-! ### Helper lemmas -/

theorem round4_zero : round4 0 = 0 := by
  norm_num [round4, roundHalfEven]

theorem apScoreMap_cases (label : String) :
    apScoreMap label = 0 ∨ apScoreMap label = 40 ∨ apScoreMap label = 60 ∨
      apScoreMap label = 80 ∨ apScoreMap label = 100 := by
  unfold apScoreMap
  split_ifs <;> simp

theorem apScoreOf_cases (ap_signals : List APSignal) :
    apScoreOf ap_signals = 0 ∨ apScoreOf ap_signals = 40 ∨ apScoreOf ap_signals = 60 ∨
      apScoreOf ap_signals = 80 ∨ apScoreOf ap_signals = 100 := by
  have key : ∀ (l : List APSignal) (acc : ℕ),
      (acc = 0 ∨ acc = 40 ∨ acc = 60 ∨ acc = 80 ∨ acc = 100) →
      (l.foldl (fun acc s => max acc (apScoreMap s.label)) acc = 0 ∨
       l.foldl (fun acc s => max acc (apScoreMap s.label)) acc = 40 ∨
       l.foldl (fun acc s => max acc (apScoreMap s.label)) acc = 60 ∨
       l.foldl (fun acc s => max acc (apScoreMap s.label)) acc = 80 ∨
       l.foldl (fun acc s => max acc (apScoreMap s.label)) acc = 100) := by
    intro l
    induction l with
    | nil => intro acc h; simpa using h
    | cons s rest ih =>
      intro acc h
      simp only [List.foldl_cons]
      apply ih
      rcases max_choice acc (apScoreMap s.label) with h' | h'
      · rw [h']; exact h
      · rw [h']; exact apScoreMap_cases s.label
  exact key ap_signals 0 (Or.inl rfl)

theorem sScore_cases (html_stats : HtmlStats) (hydration_growth : ℚ) (is_virtualized : Bool) :
    max (sArchOf html_stats hydration_growth).2 (sModOf is_virtualized).2 = 0 ∨
    max (sArchOf html_stats hydration_growth).2 (sModOf is_virtualized).2 = 20 ∨
    max (sArchOf html_stats hydration_growth).2 (sModOf is_virtualized).2 = 60 ∨
    max (sArchOf html_stats hydration_growth).2 (sModOf is_virtualized).2 = 90 := by
  have ha : (sArchOf html_stats hydration_growth).2 = 0 ∨
      (sArchOf html_stats hydration_growth).2 = 20 ∨
      (sArchOf html_stats hydration_growth).2 = 60 := by
    unfold sArchOf; split_ifs <;> simp
  have hb : (sModOf is_virtualized).2 = 0 ∨ (sModOf is_virtualized).2 = 90 := by
    unfold sModOf; split_ifs <;> simp
  rcases max_choice (sArchOf html_stats hydration_growth).2 (sModOf is_virtualized).2 with
    h | h <;> rw [h] <;> tauto

theorem lScore_cases (network_summary : NetworkSummary) (scroll_growth : ℚ) :
    (lAxisOf network_summary scroll_growth).2 = 0 ∨
    (lAxisOf network_summary scroll_growth).2 = 30 ∨
    (lAxisOf network_summary scroll_growth).2 = 50 ∨
    (lAxisOf network_summary scroll_growth).2 = 80 := by
  simp only [lAxisOf]
  split_ifs <;> simp

/-! ### Claim C7 -/

/-- C7: for every snapshot triplet, `calculate_dom_diffs` suspects
virtualization iff the (exact) scroll-height growth ratio is strictly greater
than 0.5 and the (exact) scroll node-growth ratio is strictly less than
0.05. -/
theorem virtualization_iff_thresholds (t0 t1 t2 : DomSnapshotMetrics) :
    (calculate_dom_diffs t0 t1 t2).is_virtualized_suspected = true ↔
      (scrollHeightGrowth t1 t2 > 0.5 ∧ scrollGrowth t1 t2 < 0.05) := by
  simp only [calculate_dom_diffs]
  split_ifs with h
  · simpa using h
  · simpa using h

/-! ### Claim C8 -/

/-- C8: each growth ratio whose denominator snapshot reports 0 nodes (for
`hydration_growth` and `scroll_growth`) or 0 height (for
`scroll_height_growth`) is 0; `calculate_dom_diffs` is a total function and
never divides by zero. -/
theorem dom_diffs_zero_denominator (t0 t1 t2 : DomSnapshotMetrics) :
    (t0.node_count = 0 → (calculate_dom_diffs t0 t1 t2).hydration_growth = 0) ∧
    (t1.node_count = 0 → (calculate_dom_diffs t0 t1 t2).scroll_growth = 0) ∧
    (t1.scroll_height = 0 → (calculate_dom_diffs t0 t1 t2).scroll_height_growth = 0) := by
  refine ⟨fun h => ?_, fun h => ?_, fun h => ?_⟩ <;>
    simp [calculate_dom_diffs, hydrationGrowth, scrollGrowth, scrollHeightGrowth, h,
      round4_zero]

/-- C8 witness: on the all-zero snapshot triplet each ratio evaluates to 0. -/
theorem dom_diffs_zero_denominator_witness :
    (calculate_dom_diffs (snapOf 0 0) (snapOf 0 0) (snapOf 0 0)).hydration_growth = 0 ∧
    (calculate_dom_diffs (snapOf 0 0) (snapOf 0 0) (snapOf 0 0)).scroll_growth = 0 ∧
    (calculate_dom_diffs (snapOf 0 0) (snapOf 0 0) (snapOf 0 0)).scroll_height_growth = 0 := by
  have h := dom_diffs_zero_denominator (snapOf 0 0) (snapOf 0 0) (snapOf 0 0)
  exact ⟨h.1 rfl, h.2.1 rfl, h.2.2 rfl⟩

/-! ### Claim C4 -/

/-- C4: the strategy cascade returns exactly one strategy; whenever the AP
labels contain `AP-CAPTCHA`, the returned level is `abort` (rule 1 fires
before the `S-VIRTUALIZED` rule), never `warn` — in particular when the
structure modifiers also contain `S-VIRTUALIZED`. -/
theorem strategy_captcha_virtualized_aborts (labels : SlapLabels) (drivers : List String)
    (hcap : "AP-CAPTCHA" ∈ labels.access_protection)
    (hvirt : "S-VIRTUALIZED" ∈ labels.structure_modifiers) :
    (get_strategy_text labels drivers).level = "abort" ∧
    (get_strategy_text labels drivers).level ≠ "warn" := by
  constructor
  · simp [get_strategy_text, hcap]
  · simp [get_strategy_text, hcap]

/-- C4 witness: concrete labels carrying both `AP-CAPTCHA` and
`S-VIRTUALIZED` yield `abort` and not `warn`. -/
theorem strategy_captcha_virtualized_aborts_witness :
    (get_strategy_text
        { structure_primary := "S-STATIC", structure_modifiers := ["S-VIRTUALIZED"],
          loading := "L-STATIC", access_protection := ["AP-CAPTCHA"] } []).level = "abort" ∧
    (get_strategy_text
        { structure_primary := "S-STATIC", structure_modifiers := ["S-VIRTUALIZED"],
          loading := "L-STATIC", access_protection := ["AP-CAPTCHA"] } []).level ≠ "warn" :=
  strategy_captcha_virtualized_aborts _ _ (by decide) (by decide)

/-! ### Claim C3 -/

/-- C3 (amended part that holds): within `calculate_dom_diffs` itself the
virtualization decision and the interpretation choice are evaluated on the
unrounded ratios, so they agree with the spec-described unrounded variant on
every input. -/
theorem virtualization_and_interpretation_use_unrounded (t0 t1 t2 : DomSnapshotMetrics) :
    (calculate_dom_diffs t0 t1 t2).is_virtualized_suspected =
      (calculate_dom_diffs_specUnrounded t0 t1 t2).is_virtualized_suspected ∧
    (calculate_dom_diffs t0 t1 t2).interpretation =
      (calculate_dom_diffs_specUnrounded t0 t1 t2).interpretation :=
  ⟨rfl, rfl⟩

/-! ### Claim C2 -/

/-- C2 (amended): for every non-empty detected-signal list whose first label
is a real signal (not the `AP-OPEN` sentinel), the AP candidate entering the
driver ranking is the label of the FIRST detected signal, paired with the
maximum severity score over all detected signals. -/
theorem ap_driver_entry_is_first_label (s : APSignal) (rest : List APSignal)
    (h : s.label ≠ "AP-OPEN") :
    apDriverEntry (s :: rest) = (apScoreOf (s :: rest), some s.label) := by
  simp [apDriverEntry, apLabelsOf, apCandidate, h]

/-- C2 witness: with `AP-LOGIN` detected before `AP-CAPTCHA` the AP candidate
is `AP-LOGIN`, carrying the maximum severity 100. -/
theorem ap_driver_entry_is_first_label_witness :
    apDriverEntry
        [{ label := "AP-LOGIN", state := "confirmed", confidence := 1 },
         { label := "AP-CAPTCHA", state := "confirmed", confidence := 1 }] =
      (100, some "AP-LOGIN") :=
  (ap_driver_entry_is_first_label
      { label := "AP-LOGIN", state := "confirmed", confidence := 1 }
      [{ label := "AP-CAPTCHA", state := "confirmed", confidence := 1 }]
      (by decide)).trans (by decide)

/-! ### Claim C9 -/

/-- C9: on the empty-network, identical-snapshot (50 nodes, height 0),
no-AP-evidence run, every stage produces the minimal output: zero growth, no
virtualization, `S-STATIC`/`L-STATIC` with axis scores 0, the `AP-OPEN`
sentinel with score 0, total 0, tier `EASY`, strategy `success`. -/
theorem empty_run_all_minimal :
    run9.diffs.hydration_growth = 0 ∧
    run9.diffs.scroll_growth = 0 ∧
    run9.diffs.is_virtualized_suspected = false ∧
    run9.signals = [] ∧
    run9.labels.structure_primary = "S-STATIC" ∧
    run9.labels.structure_modifiers = [] ∧
    max (sArchOf statsMin run9.diffs.hydration_growth).2
      (sModOf run9.diffs.is_virtualized_suspected).2 = 0 ∧
    run9.labels.loading = "L-STATIC" ∧
    (lAxisOf run9.summary run9.diffs.scroll_growth).2 = 0 ∧
    run9.labels.access_protection = ["AP-OPEN"] ∧
    apScoreOf run9.signals = 0 ∧
    run9.score.total_score = 0 ∧
    run9.score.tier = "EASY" ∧
    run9.strategy.level = "success" := by
  refine ⟨?_, ?_, ?_, ?_, ?_, ?_, ?_, ?_, ?_, ?_, ?_, ?_, ?_, ?_⟩ <;>
  norm_num [run9, runSlap, calculate_dom_diffs, hydrationGrowth, scrollGrowth,
    scrollHeightGrowth, round4, roundHalfEven, analyze_network_logs, suspectedApisOf,
    suspectedApisStep, analyze_ap_signals, loginKeywords, captchaKeywords, strContains,
    lowerStr, subOccurs, isPrefixList, calculate_slap_score, sArchOf, sModOf, lAxisOf,
    apLabelsOf, apScoreOf, apScoreMap, apDriverEntry, apCandidate, sDriverLabelOf, tierOf,
    truncQ, sortDesc, insertDesc, statsMin, snapOf, get_strategy_text, isXhrFetch,
    isApiLike] <;>
  decide

/-! ### Claim C1 -/

/-- C1 counterexample: on the run whose network log holds exactly one 401
exchange and whose every other input is minimal, the detector does emit the
confirmed `AP-AUTH` signal with confidence 1.0 and the strategy is `abort`,
but the total score is exactly 50, whose tier is `MEDIUM` — not `HARD` or
`HELL` as the claim states. -/
theorem ap_auth_minimal_run_tier_counterexample :
    (analyze_network_logs [entry401]).blocking_401 = 1 ∧
    (analyze_network_logs [entry401]).blocking_403 = 0 ∧
    (analyze_network_logs [entry401]).blocking_429 = 0 ∧
    run1.signals = [{ label := "AP-AUTH", state := "confirmed", confidence := 1 }] ∧
    max (sArchOf statsMin run1.diffs.hydration_growth).2
      (sModOf run1.diffs.is_virtualized_suspected).2 = 0 ∧
    (lAxisOf run1.summary run1.diffs.scroll_growth).2 = 0 ∧
    run1.score.total_score = 50 ∧
    run1.strategy.level = "abort" ∧
    run1.score.tier = "MEDIUM" ∧
    run1.score.tier ≠ "HARD" ∧
    run1.score.tier ≠ "HELL" := by
  have hns : analyze_network_logs [entry401] =
      { total_captured := 1, xhr_fetch_count := 0, blocking_401 := 1, blocking_403 := 0,
        blocking_429 := 0, dt_json := 0, dt_html := 0, dt_graphql := 0,
        suspected_apis := [] } := by decide
  refine ⟨?_, ?_, ?_, ?_, ?_, ?_, ?_, ?_, ?_, ?_, ?_⟩ <;>
  simp only [run1, runSlap, hns] <;>
  norm_num [calculate_dom_diffs, hydrationGrowth, scrollGrowth,
    scrollHeightGrowth, round4, roundHalfEven, analyze_ap_signals, loginKeywords,
    captchaKeywords, strContains, lowerStr, subOccurs, isPrefixList, calculate_slap_score,
    sArchOf, sModOf, lAxisOf, apLabelsOf, apScoreOf, apScoreMap, apDriverEntry,
    apCandidate, sDriverLabelOf, tierOf, truncQ, sortDesc, insertDesc, statsMin, snapOf,
    get_strategy_text] <;>
  decide

/-- C1 (amended): for any run whose network summary counts exactly one 401 and
whose only detected AP signal is the confirmed `AP-AUTH` (confidence 1.0),
with structure and loading axis scores 0, the total score is exactly 50
(hence at least 50), the tier is `MEDIUM`, and the strategy is `abort`. -/
theorem ap_auth_minimal_run_scores (url : String) (status_code : ℤ)
    (html_stats : HtmlStats) (network_logs : List NetworkLogEntry)
    (t0 t1 t2 : DomSnapshotMetrics) (raw_html : String)
    (h401 : (analyze_network_logs network_logs).blocking_401 = 1)
    (hsig : analyze_ap_signals url status_code html_stats (analyze_network_logs network_logs)
        raw_html (calculate_dom_diffs t0 t1 t2) =
      [{ label := "AP-AUTH", state := "confirmed", confidence := 1 }])
    (hs : max (sArchOf html_stats (calculate_dom_diffs t0 t1 t2).hydration_growth).2
        (sModOf (calculate_dom_diffs t0 t1 t2).is_virtualized_suspected).2 = 0)
    (hl : (lAxisOf (analyze_network_logs network_logs)
        (calculate_dom_diffs t0 t1 t2).scroll_growth).2 = 0) :
    (runSlap url status_code html_stats network_logs t0 t1 t2 raw_html).signals =
      [{ label := "AP-AUTH", state := "confirmed", confidence := 1 }] ∧
    50 ≤ (runSlap url status_code html_stats network_logs t0 t1 t2 raw_html).score.total_score ∧
    (runSlap url status_code html_stats network_logs t0 t1 t2 raw_html).score.total_score = 50 ∧
    (runSlap url status_code html_stats network_logs t0 t1 t2 raw_html).score.tier = "MEDIUM" ∧
    (runSlap url status_code html_stats network_logs t0 t1 t2 raw_html).strategy.level =
      "abort" := by
  simp only [runSlap, calculate_slap_score]
  rw [hsig, hs, hl]
  norm_num [apScoreOf, apScoreMap, apLabelsOf, apDriverEntry, apCandidate, sDriverLabelOf,
    tierOf, truncQ, sortDesc, insertDesc, get_strategy_text]

/-- C1 witness: the amended theorem applied to the concrete one-401 minimal
run. -/
theorem ap_auth_minimal_run_scores_witness :
    (runSlap "" 401 statsMin [entry401] (snapOf 50 0) (snapOf 50 0) (snapOf 50 0)
        "").score.total_score = 50 ∧
    (runSlap "" 401 statsMin [entry401] (snapOf 50 0) (snapOf 50 0) (snapOf 50 0)
        "").score.tier = "MEDIUM" ∧
    (runSlap "" 401 statsMin [entry401] (snapOf 50 0) (snapOf 50 0) (snapOf 50 0)
        "").strategy.level = "abort" := by
  have hns : analyze_network_logs [entry401] =
      { total_captured := 1, xhr_fetch_count := 0, blocking_401 := 1, blocking_403 := 0,
        blocking_429 := 0, dt_json := 0, dt_html := 0, dt_graphql := 0,
        suspected_apis := [] } := by decide
  have h := ap_auth_minimal_run_scores "" 401 statsMin [entry401]
    (snapOf 50 0) (snapOf 50 0) (snapOf 50 0) ""
    (by rw [hns])
    (by
      rw [hns]
      norm_num [analyze_ap_signals, loginKeywords, captchaKeywords, strContains, lowerStr,
        subOccurs, isPrefixList, statsMin, calculate_dom_diffs, hydrationGrowth,
        scrollGrowth, scrollHeightGrowth, round4, roundHalfEven, snapOf])
    (by
      norm_num [sArchOf, sModOf, calculate_dom_diffs, hydrationGrowth, scrollGrowth,
        scrollHeightGrowth, round4, roundHalfEven, statsMin, snapOf])
    (by
      rw [hns]
      norm_num [lAxisOf, calculate_dom_diffs, hydrationGrowth, scrollGrowth,
        scrollHeightGrowth, round4, roundHalfEven, snapOf])
  exact ⟨h.2.2.1, h.2.2.2.1, h.2.2.2.2⟩

/-- C2 counterexample: on the run where `AP-LOGIN` (severity 40) is detected
before `AP-CAPTCHA` (severity 100), the driver list names `AP-LOGIN`, not the
higher-severity `AP-CAPTCHA` the claim requires. -/
theorem ap_driver_first_label_counterexample :
    run2.signals.map (fun s => s.label) = ["AP-LOGIN", "AP-CAPTCHA"] ∧
    apScoreOf run2.signals = 100 ∧
    run2.score.drivers = ["AP-LOGIN"] ∧
    "AP-CAPTCHA" ∉ run2.score.drivers := by
  have hurl : (loginKeywords.any fun kw => strContains (lowerStr "https://x/login") kw)
      = true := by decide
  have htitle : (loginKeywords.any fun kw => strContains (lowerStr "") kw) = false := by
    decide
  have hcap : (captchaKeywords.filter fun kw => strContains (lowerStr "recaptcha") kw)
      = ["recaptcha"] := by decide
  refine ⟨?_, ?_, ?_, ?_⟩ <;>
  norm_num [run2, runSlap, calculate_dom_diffs, hydrationGrowth, scrollGrowth,
    scrollHeightGrowth, round4, roundHalfEven, analyze_network_logs, suspectedApisOf,
    suspectedApisStep, analyze_ap_signals, hurl, htitle, hcap,
    calculate_slap_score, sArchOf, sModOf, lAxisOf,
    apLabelsOf, apScoreOf, apScoreMap, apDriverEntry, apCandidate, sDriverLabelOf, tierOf,
    truncQ, sortDesc, insertDesc, statsMin, snapOf, get_strategy_text, isXhrFetch,
    isApiLike] <;>
  decide

/-- C3 counterexample: on the run with hydration growth 5001/25000 = 0.20004
the implemented pipeline (which compares against the value rounded to 0.2)
classifies the structure axis `S-STATIC`, while the classification computed
from the exact unrounded ratio is `S-CSR`. -/
theorem rounding_affects_classification_counterexample :
    hydrationGrowth (snapOf 25000 0) (snapOf 30001 0) = 5001 / 25000 ∧
    run3.diffs.hydration_growth = 0.2 ∧
    run3.labels.structure_primary = "S-STATIC" ∧
    run3u.labels.structure_primary = "S-CSR" ∧
    run3.labels.structure_primary ≠ run3u.labels.structure_primary := by
  refine ⟨?_, ?_, ?_, ?_, ?_⟩ <;>
  norm_num [run3, run3u, runSlap, runSlapSpecUnrounded, calculate_dom_diffs,
    calculate_dom_diffs_specUnrounded, hydrationGrowth, scrollGrowth, scrollHeightGrowth,
    round4, roundHalfEven, analyze_network_logs, suspectedApisOf, suspectedApisStep,
    analyze_ap_signals, loginKeywords, captchaKeywords, strContains, lowerStr, subOccurs,
    isPrefixList, calculate_slap_score, sArchOf, sModOf, lAxisOf, apLabelsOf, apScoreOf,
    apScoreMap, apDriverEntry, apCandidate, sDriverLabelOf, tierOf, truncQ, sortDesc,
    insertDesc, statsMin, snapOf, get_strategy_text, isXhrFetch, isApiLike] <;>
  decide

/-- Case evaluation of the weighted total over the achievable axis scores. -/
theorem weighted_total_cases (a s l : ℕ)
    (ha : a = 0 ∨ a = 40 ∨ a = 60 ∨ a = 80 ∨ a = 100)
    (hs : s = 0 ∨ s = 20 ∨ s = 60 ∨ s = 90)
    (hl : l = 0 ∨ l = 30 ∨ l = 50 ∨ l = 80) :
    0 ≤ truncQ ((a : ℚ) * 0.5 + (s : ℚ) * 0.3 + (l : ℚ) * 0.2) ∧
    truncQ ((a : ℚ) * 0.5 + (s : ℚ) * 0.3 + (l : ℚ) * 0.2) ≤ 100 ∧
    truncQ ((a : ℚ) * 0.5 + (s : ℚ) * 0.3 + (l : ℚ) * 0.2) =
      Int.floor ((0.5 : ℚ) * (a : ℚ) + (0.3 : ℚ) * (s : ℚ) + (0.2 : ℚ) * (l : ℚ)) ∧
    tierOf (truncQ ((a : ℚ) * 0.5 + (s : ℚ) * 0.3 + (l : ℚ) * 0.2)) =
      (if 81 ≤ truncQ ((a : ℚ) * 0.5 + (s : ℚ) * 0.3 + (l : ℚ) * 0.2) then "HELL"
       else if 51 ≤ truncQ ((a : ℚ) * 0.5 + (s : ℚ) * 0.3 + (l : ℚ) * 0.2) then "HARD"
       else if 21 ≤ truncQ ((a : ℚ) * 0.5 + (s : ℚ) * 0.3 + (l : ℚ) * 0.2) then "MEDIUM"
       else "EASY") := by
  rcases ha with rfl | rfl | rfl | rfl | rfl <;>
  rcases hs with rfl | rfl | rfl | rfl <;>
  rcases hl with rfl | rfl | rfl | rfl <;>
  norm_num [truncQ, tierOf]

/-! ### Claim C5 -/

/-- C5: for every combination of analyzer outputs the total difficulty score
is an integer in [0,100] equal to the floor of 0.5·AP + 0.3·Structure +
0.2·Loading, and the tier is the pure function of the total score with
inclusive lower bounds 81/51/21. -/
theorem total_score_floor_and_tier (html_stats : HtmlStats)
    (network_summary : NetworkSummary) (dom_diff_result : DomDiffResult)
    (ap_signals : List APSignal) :
    0 ≤ (calculate_slap_score html_stats network_summary dom_diff_result
        ap_signals).2.total_score ∧
    (calculate_slap_score html_stats network_summary dom_diff_result
        ap_signals).2.total_score ≤ 100 ∧
    (calculate_slap_score html_stats network_summary dom_diff_result
        ap_signals).2.total_score =
      Int.floor ((0.5 : ℚ) * (apScoreOf ap_signals : ℚ) +
        (0.3 : ℚ) * ((max (sArchOf html_stats dom_diff_result.hydration_growth).2
          (sModOf dom_diff_result.is_virtualized_suspected).2 : ℕ) : ℚ) +
        (0.2 : ℚ) * ((lAxisOf network_summary dom_diff_result.scroll_growth).2 : ℚ)) ∧
    (calculate_slap_score html_stats network_summary dom_diff_result ap_signals).2.tier =
      (if 81 ≤ (calculate_slap_score html_stats network_summary dom_diff_result
          ap_signals).2.total_score then "HELL"
       else if 51 ≤ (calculate_slap_score html_stats network_summary dom_diff_result
          ap_signals).2.total_score then "HARD"
       else if 21 ≤ (calculate_slap_score html_stats network_summary dom_diff_result
          ap_signals).2.total_score then "MEDIUM"
       else "EASY") := by
  simp only [calculate_slap_score]
  exact weighted_total_cases (apScoreOf ap_signals)
    (max (sArchOf html_stats dom_diff_result.hydration_growth).2
      (sModOf dom_diff_result.is_virtualized_suspected).2)
    (lAxisOf network_summary dom_diff_result.scroll_growth).2
    (apScoreOf_cases ap_signals)
    (sScore_cases html_stats dom_diff_result.hydration_growth
      dom_diff_result.is_virtualized_suspected)
    (lScore_cases network_summary dom_diff_result.scroll_growth)

/-! ### Claim C10 -/

/-- Case evaluation of the per-axis truncated contributions over the
achievable axis scores: every achievable weighted contribution is already an
integer, so truncation distributes over the sum. -/
theorem breakdown_cases (a s l : ℕ)
    (ha : a = 0 ∨ a = 40 ∨ a = 60 ∨ a = 80 ∨ a = 100)
    (hs : s = 0 ∨ s = 20 ∨ s = 60 ∨ s = 90)
    (hl : l = 0 ∨ l = 30 ∨ l = 50 ∨ l = 80) :
    truncQ ((a : ℚ) * 0.5) ≤ 50 ∧
    truncQ ((s : ℚ) * 0.3) ≤ 30 ∧
    truncQ ((l : ℚ) * 0.2) ≤ 20 ∧
    truncQ ((a : ℚ) * 0.5 + (s : ℚ) * 0.3 + (l : ℚ) * 0.2) =
      truncQ ((a : ℚ) * 0.5) + truncQ ((s : ℚ) * 0.3) + truncQ ((l : ℚ) * 0.2) := by
  rcases ha with rfl | rfl | rfl | rfl | rfl <;>
  rcases hs with rfl | rfl | rfl | rfl <;>
  rcases hl with rfl | rfl | rfl | rfl <;>
  norm_num [truncQ]

/-- C10: the per-axis breakdown fields satisfy AP ≤ 50, S ≤ 30, L ≤ 20, and
under the exact rational arithmetic of the model the total score equals the
sum of the three floor-truncated weighted contributions. -/
theorem breakdown_bounds_and_sum (html_stats : HtmlStats)
    (network_summary : NetworkSummary) (dom_diff_result : DomDiffResult)
    (ap_signals : List APSignal) :
    (calculate_slap_score html_stats network_summary dom_diff_result
        ap_signals).2.breakdown.AP ≤ 50 ∧
    (calculate_slap_score html_stats network_summary dom_diff_result
        ap_signals).2.breakdown.S ≤ 30 ∧
    (calculate_slap_score html_stats network_summary dom_diff_result
        ap_signals).2.breakdown.L ≤ 20 ∧
    (calculate_slap_score html_stats network_summary dom_diff_result
        ap_signals).2.total_score =
      (calculate_slap_score html_stats network_summary dom_diff_result
        ap_signals).2.breakdown.AP +
      (calculate_slap_score html_stats network_summary dom_diff_result
        ap_signals).2.breakdown.S +
      (calculate_slap_score html_stats network_summary dom_diff_result
        ap_signals).2.breakdown.L := by
  simp only [calculate_slap_score]
  exact breakdown_cases (apScoreOf ap_signals)
    (max (sArchOf html_stats dom_diff_result.hydration_growth).2
      (sModOf dom_diff_result.is_virtualized_suspected).2)
    (lAxisOf network_summary dom_diff_result.scroll_growth).2
    (apScoreOf_cases ap_signals)
    (sScore_cases html_stats dom_diff_result.hydration_growth
      dom_diff_result.is_virtualized_suspected)
    (lScore_cases network_summary dom_diff_result.scroll_growth)

/-! ### Claim C6 -/

/-- The suspected-API fold preserves freedom from duplicates: a URL is only
appended when it is not already present. -/
theorem suspectedFoldl_nodup (logs : List NetworkLogEntry) :
    ∀ acc : List String, acc.Nodup → (logs.foldl suspectedApisStep acc).Nodup := by
  induction logs with
  | nil => intro acc h; simpa using h
  | cons l rest ih =>
    intro acc h
    simp only [List.foldl_cons]
    apply ih
    unfold suspectedApisStep
    split_ifs with h1 h2
    · simp [List.nodup_append, h, h1.2]
    · exact h
    · exact h

/-- C6: for every ordered network log the summary satisfies
`xhr_fetch_count ≤ total_captured`, each 401/403/429 blocking count is at most
`total_captured`, and `suspected_apis` has at most 10 entries with no
duplicate URLs. -/
theorem network_summary_invariants (network_logs : List NetworkLogEntry) :
    (analyze_network_logs network_logs).xhr_fetch_count ≤
      (analyze_network_logs network_logs).total_captured ∧
    (analyze_network_logs network_logs).blocking_401 ≤
      (analyze_network_logs network_logs).total_captured ∧
    (analyze_network_logs network_logs).blocking_403 ≤
      (analyze_network_logs network_logs).total_captured ∧
    (analyze_network_logs network_logs).blocking_429 ≤
      (analyze_network_logs network_logs).total_captured ∧
    (analyze_network_logs network_logs).suspected_apis.length ≤ 10 ∧
    (analyze_network_logs network_logs).suspected_apis.Nodup := by
  refine ⟨?_, ?_, ?_, ?_, ?_, ?_⟩
  · simp only [analyze_network_logs]
    exact List.length_filter_le _ _
  · simp only [analyze_network_logs]
    exact List.length_filter_le _ _
  · simp only [analyze_network_logs]
    exact List.length_filter_le _ _
  · simp only [analyze_network_logs]
    exact List.length_filter_le _ _
  · simp only [analyze_network_logs, suspectedApisOf]
    rw [List.length_take]
    exact min_le_left _ _
  · simp only [analyze_network_logs, suspectedApisOf]
    exact List.Nodup.sublist (List.take_sublist _ _)
      (suspectedFoldl_nodup network_logs [] (by simp))
